import Mathlib

/-
Verification of the Alternative-Investments data-quality pipeline.

The definitions below are a shallow embedding of the validation and scoring
engine found in src/02_validate_quality.py, src/03_generate_metrics.py,
src/config.py and the tvpi_calculated derivation of src/01_ingest_standardize.py.

Modelling conventions:
- pandas float columns become Option Rat: a missing value (NaN) is none.
  NaN propagation and NaN comparison semantics (any comparison with NaN is
  false) are modelled explicitly where they matter; division producing an
  infinite value is modelled by the PVal type below.
- timestamps produced by datetime.now() are explicit parameters (a string
  for isoformat stamps, an integer day count for date arithmetic).
- free-text description fields and the stringified expected/actual value
  fields of an issue are presentational renderings of data already present
  in the record; they are omitted from the Issue and Alert structures, which
  keep every field the claims quantify over (ids, types, severities, field
  names, timestamps, statuses).
-/

namespace DQ

/-- One row of the standardized_funds table, as read by the validator.
Numeric columns are rationals (floats idealized), the last_updated column is
an epoch day count, nullable cells are Option. -/
structure FundRow where
  fund_id : Option String
  fund_name : Option String
  manager_name : Option String
  fund_type : Option String
  strategy : Option String
  vintage_year : Option ℚ
  inception_date : Option String
  fund_size_usd_millions : Option ℚ
  original_currency : Option String
  original_fund_size : Option ℚ
  target_size_usd_millions : Option ℚ
  status : Option String
  geography : Option String
  sector_focus : Option String
  administrator : Option String
  last_updated : Option Int
deriving DecidableEq, Repr

/-- One row of the standardized_performance table. -/
structure PerfRow where
  fund_id : Option String
  report_date : Option String
  report_quarter : Option String
  irr_net_pct : Option ℚ
  moic : Option ℚ
  dpi : Option ℚ
  rvpi : Option ℚ
  tvpi : Option ℚ
  tvpi_calculated : Option ℚ
  capital_called_millions : Option ℚ
  distributions_millions : Option ℚ
  remaining_value_millions : Option ℚ
  nav_per_share : Option ℚ
  monthly_return_pct : Option ℚ
deriving DecidableEq, Repr

/-- The two columns of raw_regulatory selected by validate_cross_source. -/
structure RegRow where
  fund_id : Option String
  reported_aum_millions : Option ℚ
deriving DecidableEq, Repr

/-- The structured arguments of one DataQualityValidator.log_issue call. -/
structure LogCall where
  fund_id : Option String
  issue_type : String
  severity : String
  field_name : String
deriving DecidableEq, Repr

/-- A record of the quality_issues accumulator built by log_issue. -/
structure Issue where
  fund_id : Option String
  issue_type : String
  severity : String
  field_name : String
  detected_timestamp : String
  status : String
deriving DecidableEq, Repr

/-- A record of the quality_alerts accumulator built by create_alert. -/
structure Alert where
  alert_id : String
  fund_id : Option String
  rule_violated : String
  severity : String
  detected_timestamp : String
  status : String
deriving DecidableEq, Repr

/-- The per-severity counters kept in DataQualityValidator.stats. -/
structure Stats where
  total_issues : Nat
  critical_issues : Nat
  high_issues : Nat
  medium_issues : Nat
  low_issues : Nat
deriving DecidableEq, Repr

/-- The mutable state of a DataQualityValidator instance. -/
structure VState where
  issues : List Issue
  alerts : List Alert
  stats : Stats
deriving DecidableEq, Repr

/-- The state of a freshly constructed DataQualityValidator. -/
def initState : VState := ⟨[], [], ⟨0, 0, 0, 0, 0⟩⟩

/-- Zero padding of a natural number to at least four digits, the meaning of
the Python format ALERT-%04d for nonnegative arguments. -/
def pad4 (n : Nat) : String :=
  let s := toString n
  if s.length < 4 then String.mk (List.replicate (4 - s.length) '0') ++ s else s

/-- The Issue record appended by log_issue for one call. -/
def issueOf (ts : String) (c : LogCall) : Issue :=
  ⟨c.fund_id, c.issue_type, c.severity, c.field_name, ts, "Open"⟩

/-- The Alert record appended by create_alert when the accumulator already
holds n - 1 alerts; its identifier is ALERT- followed by n zero padded. -/
def alertOf (ts : String) (n : Nat) (c : LogCall) : Alert :=
  ⟨"ALERT-" ++ pad4 n, c.fund_id, c.issue_type, c.severity, ts, "ACTIVE"⟩

/-- The severity tally update performed by log_issue. -/
def bumpStats (st : Stats) (sev : String) : Stats :=
  let st := { st with total_issues := st.total_issues + 1 }
  if sev = "Critical" then { st with critical_issues := st.critical_issues + 1 }
  else if sev = "High" then { st with high_issues := st.high_issues + 1 }
  else if sev = "Medium" then { st with medium_issues := st.medium_issues + 1 }
  else { st with low_issues := st.low_issues + 1 }

/-- DataQualityValidator.log_issue: append the issue, update the tallies and,
when the severity is Critical, synchronously append an alert whose identifier
is derived from the current alert count. -/
def logIssue (ts : String) (s : VState) (c : LogCall) : VState :=
  let s1 : VState :=
    { s with issues := s.issues ++ [issueOf ts c], stats := bumpStats s.stats c.severity }
  if c.severity = "Critical" then
    { s1 with alerts := s1.alerts ++ [alertOf ts (s1.alerts.length + 1) c] }
  else s1

/-- A sequence of log_issue calls folded over the validator state. -/
def runCalls (ts : String) (s : VState) (calls : List LogCall) : VState :=
  calls.foldl (logIssue ts) s

/-- The list of alerts produced by a call sequence when the accumulator
already holds n alerts; used to state the alert invariant. -/
def buildAlerts (ts : String) (n : Nat) : List LogCall → List Alert
  | [] => []
  | c :: cs =>
      if c.severity = "Critical" then alertOf ts (n + 1) c :: buildAlerts ts (n + 1) cs
      else buildAlerts ts n cs

theorem buildAlerts_nil (ts : String) (n : Nat) : buildAlerts ts n [] = [] := rfl

theorem buildAlerts_cons (ts : String) (n : Nat) (c : LogCall) (cs : List LogCall) :
    buildAlerts ts n (c :: cs) =
      if c.severity = "Critical" then alertOf ts (n + 1) c :: buildAlerts ts (n + 1) cs
      else buildAlerts ts n cs := rfl

theorem runCalls_issues_alerts (ts : String) (calls : List LogCall) :
    ∀ s : VState,
      (runCalls ts s calls).issues = s.issues ++ calls.map (issueOf ts) ∧
      (runCalls ts s calls).alerts = s.alerts ++ buildAlerts ts s.alerts.length calls := by
  induction calls with
  | nil => intro s; simp [runCalls, buildAlerts]
  | cons c cs ih =>
      intro s
      have step : runCalls ts s (c :: cs) = runCalls ts (logIssue ts s c) cs := rfl
      rcases ih (logIssue ts s c) with ⟨hi, ha⟩
      by_cases hc : c.severity = "Critical"
      · constructor
        · rw [step, hi]; simp [logIssue, hc]
        · rw [step, ha]; simp [logIssue, hc, buildAlerts_cons]
      · constructor
        · rw [step, hi]; simp [logIssue, hc]
        · rw [step, ha]; simp [logIssue, hc, buildAlerts_cons]

theorem length_buildAlerts (ts : String) (calls : List LogCall) :
    ∀ n : Nat, (buildAlerts ts n calls).length =
      calls.countP (fun c => c.severity == "Critical") := by
  induction calls with
  | nil => intro n; simp [buildAlerts]
  | cons c cs ih =>
      intro n
      by_cases hc : c.severity = "Critical" <;>
        simp [buildAlerts_cons, hc, List.countP_cons, ih]

theorem payload_buildAlerts (ts : String) (calls : List LogCall) :
    ∀ n : Nat,
      (buildAlerts ts n calls).map (fun a => (a.fund_id, a.rule_violated, a.severity)) =
        (calls.filter (fun c => c.severity == "Critical")).map
          (fun c => (c.fund_id, c.issue_type, c.severity)) := by
  induction calls with
  | nil => intro n; simp [buildAlerts]
  | cons c cs ih =>
      intro n
      by_cases hc : c.severity = "Critical" <;>
        simp [buildAlerts_cons, hc, List.filter_cons, ih, alertOf]

theorem ids_buildAlerts (ts : String) (calls : List LogCall) :
    ∀ n : Nat,
      (buildAlerts ts n calls).map (fun a => a.alert_id) =
        (List.range (buildAlerts ts n calls).length).map
          (fun k => "ALERT-" ++ pad4 (n + k + 1)) := by
  induction calls with
  | nil => intro n; simp [buildAlerts]
  | cons c cs ih =>
      intro n
      by_cases hc : c.severity = "Critical"
      · simp only [buildAlerts_cons, if_pos hc, List.map_cons, List.length_cons,
          List.range_succ_eq_map, List.map_map, List.cons.injEq]
        refine ⟨by simp [alertOf], ?_⟩
        rw [ih (n + 1)]
        apply List.map_congr_left
        intro k _
        simp only [Function.comp_apply]
        congr 2
        omega
      · simp only [buildAlerts_cons, if_neg hc]
        exact ih n

/-- Worker of uniqueList: keep the first occurrence of each value not yet
seen, preserving order. -/
def uniqueAux {α : Type} [DecidableEq α] (seen : List α) : List α → List α
  | [] => []
  | x :: xs => if x ∈ seen then uniqueAux seen xs else x :: uniqueAux (x :: seen) xs

/-- First-occurrence deduplication, the order-preserving distinct-value
operation behind pandas unique and the SQL SELECT DISTINCT reads. -/
def uniqueList {α : Type} [DecidableEq α] (l : List α) : List α :=
  uniqueAux [] l

theorem mem_uniqueAux {α : Type} [DecidableEq α] (a : α) :
    ∀ (l : List α) (seen : List α), a ∈ uniqueAux seen l ↔ (a ∈ l ∧ a ∉ seen) := by
  intro l
  induction l with
  | nil => intro seen; simp [uniqueAux]
  | cons x xs ih =>
      intro seen
      by_cases hx : x ∈ seen
      · rw [uniqueAux, if_pos hx, ih seen]
        constructor
        · exact fun h => ⟨List.mem_cons_of_mem x h.1, h.2⟩
        · rintro ⟨hmem, hns⟩
          rcases List.mem_cons.mp hmem with rfl | h
          · exact absurd hx hns
          · exact ⟨h, hns⟩
      · rw [uniqueAux, if_neg hx]
        by_cases hax : a = x
        · subst hax; simp [hx]
        · simp only [List.mem_cons, hax, false_or]
          rw [ih (x :: seen)]
          simp [hax]

theorem mem_uniqueList {α : Type} [DecidableEq α] (a : α) (l : List α) :
    a ∈ uniqueList l ↔ a ∈ l := by
  rw [uniqueList, mem_uniqueAux]
  simp

theorem nodup_uniqueAux {α : Type} [DecidableEq α] :
    ∀ (l : List α) (seen : List α), (uniqueAux seen l).Nodup := by
  intro l
  induction l with
  | nil => intro seen; simp [uniqueAux]
  | cons x xs ih =>
      intro seen
      by_cases hx : x ∈ seen
      · rw [uniqueAux, if_pos hx]; exact ih seen
      · rw [uniqueAux, if_neg hx]
        refine List.nodup_cons.mpr ⟨?_, ih (x :: seen)⟩
        intro hmem
        exact ((mem_uniqueAux x xs (x :: seen)).mp hmem).2 (List.mem_cons_self x seen)

theorem nodup_uniqueList {α : Type} [DecidableEq α] (l : List α) :
    (uniqueList l).Nodup := nodup_uniqueAux l []

/-
Configuration constants from src/config.py.
-/

/-- QUALITY_THRESHOLDS timeliness_days. -/
def timelinessDays : Int := 90

/-- QUALITY_THRESHOLDS variance_threshold (percent). -/
def varianceThreshold : ℚ := 5

/-- VALIDATION_RULES fund_master required_fields. -/
def fundRequiredFields : List String :=
  ["fund_id", "fund_name", "manager_name", "fund_type", "vintage_year",
   "fund_size_usd_millions", "target_size_usd_millions"]

/-- VALIDATION_RULES fund_master numeric_ranges; the vintage upper bound is
datetime.now().year, passed in as the year parameter. -/
def fundNumericRanges (year : ℚ) : List (String × ℚ × ℚ) :=
  [("fund_size_usd_millions", 0, 100000),
   ("vintage_year", 1950, year),
   ("target_size_usd_millions", 0, 100000)]

/-- VALIDATION_RULES fund_master categorical_values. -/
def fundCategoricalValues : List (String × List String) :=
  [("fund_type", ["Private Equity", "Hedge Fund", "Venture Capital"]),
   ("currency", ["USD", "EUR", "GBP", "JPY", "CHF", "CNY", "CAD"])]

/-- VALIDATION_RULES performance numeric_ranges. -/
def perfNumericRanges : List (String × ℚ × ℚ) :=
  [("irr_net_pct", -100, 200),
   ("dpi", 0, 20),
   ("rvpi", 0, 20),
   ("tvpi", 0, 30),
   ("monthly_return_pct", -50, 100)]

/-- VALIDATION_RULES performance tvpi_equals_dpi_plus_rvpi tolerance. -/
def tvpiTolerance : ℚ := 1 / 100

/-- MANAGER_TIERS score bands, in dictionary insertion order. -/
def MANAGER_TIERS : List (String × ℚ × ℚ) :=
  [("Tier 1 (Excellent)", 95, 100),
   ("Tier 2 (Good)", 85, 95),
   ("Tier 3 (Needs Improvement)", 70, 85),
   ("Tier 4 (Critical)", 0, 70)]

/-- config.get_manager_tier: first band with min less-or-equal score strictly
below max, falling back to Tier 4. -/
def get_manager_tier (quality_score : ℚ) : String :=
  match MANAGER_TIERS.find? (fun t => decide (t.2.1 ≤ quality_score) && decide (quality_score < t.2.2)) with
  | some t => t.1
  | none => "Tier 4 (Critical)"

/-- Columns of the standardized_funds table, as written by
standardize_fund_master in src/01_ingest_standardize.py. -/
def stdFundsColumns : List String :=
  ["fund_id", "fund_name", "manager_name", "fund_type", "strategy",
   "vintage_year", "inception_date", "fund_size_usd_millions",
   "original_currency", "original_fund_size", "target_size_usd_millions",
   "status", "geography", "sector_focus", "administrator", "last_updated",
   "standardization_timestamp", "data_quality_passed"]

/-- Columns of the standardized_performance table, as written by
standardize_performance in src/01_ingest_standardize.py. -/
def stdPerfColumns : List String :=
  ["fund_id", "report_date", "report_quarter", "irr_net_pct", "moic", "dpi",
   "rvpi", "tvpi", "tvpi_calculated", "capital_called_millions",
   "distributions_millions", "remaining_value_millions", "nav_per_share",
   "monthly_return_pct", "standardization_timestamp", "data_quality_passed"]

/-- Column access by name for the numeric fund columns monitored by the
accuracy rule. -/
def fundNumField (r : FundRow) (field : String) : Option ℚ :=
  if field = "fund_size_usd_millions" then r.fund_size_usd_millions
  else if field = "vintage_year" then r.vintage_year
  else if field = "target_size_usd_millions" then r.target_size_usd_millions
  else if field = "original_fund_size" then r.original_fund_size
  else none

/-- Column access by name for the string-valued fund columns. -/
def fundStrField (r : FundRow) (field : String) : Option String :=
  if field = "fund_id" then r.fund_id
  else if field = "fund_name" then r.fund_name
  else if field = "manager_name" then r.manager_name
  else if field = "fund_type" then r.fund_type
  else if field = "strategy" then r.strategy
  else if field = "inception_date" then r.inception_date
  else if field = "original_currency" then r.original_currency
  else if field = "status" then r.status
  else if field = "geography" then r.geography
  else if field = "sector_focus" then r.sector_focus
  else if field = "administrator" then r.administrator
  else none

/-- Nullness of a fund cell accessed by column name. -/
def fundFieldIsNull (r : FundRow) (field : String) : Bool :=
  if field = "fund_id" then r.fund_id.isNone
  else if field = "fund_name" then r.fund_name.isNone
  else if field = "manager_name" then r.manager_name.isNone
  else if field = "fund_type" then r.fund_type.isNone
  else if field = "strategy" then r.strategy.isNone
  else if field = "vintage_year" then r.vintage_year.isNone
  else if field = "inception_date" then r.inception_date.isNone
  else if field = "fund_size_usd_millions" then r.fund_size_usd_millions.isNone
  else if field = "original_currency" then r.original_currency.isNone
  else if field = "original_fund_size" then r.original_fund_size.isNone
  else if field = "target_size_usd_millions" then r.target_size_usd_millions.isNone
  else if field = "status" then r.status.isNone
  else if field = "geography" then r.geography.isNone
  else if field = "sector_focus" then r.sector_focus.isNone
  else if field = "administrator" then r.administrator.isNone
  else if field = "last_updated" then r.last_updated.isNone
  else false

/-- Column access by name for the numeric performance columns. -/
def perfNumField (r : PerfRow) (field : String) : Option ℚ :=
  if field = "irr_net_pct" then r.irr_net_pct
  else if field = "moic" then r.moic
  else if field = "dpi" then r.dpi
  else if field = "rvpi" then r.rvpi
  else if field = "tvpi" then r.tvpi
  else if field = "tvpi_calculated" then r.tvpi_calculated
  else if field = "capital_called_millions" then r.capital_called_millions
  else if field = "distributions_millions" then r.distributions_millions
  else if field = "remaining_value_millions" then r.remaining_value_millions
  else if field = "nav_per_share" then r.nav_per_share
  else if field = "monthly_return_pct" then r.monthly_return_pct
  else none

/-
Rule 1 to Rule 7 of DataQualityValidator, each as the sequence of log_issue
calls the rule performs, in source order.
-/

/-- Rule 1, validate_completeness: one issue per null required cell, then the
dedicated administrator check. -/
def completenessCalls (funds : List FundRow) : List LogCall :=
  (fundRequiredFields.flatMap (fun field =>
    (funds.filter (fun r => fundFieldIsNull r field)).map (fun r =>
      ⟨r.fund_id, "Completeness",
        if field = "fund_id" ∨ field = "fund_name" ∨ field = "fund_type" then "High" else "Medium",
        field⟩)))
  ++ (funds.filter (fun r => r.administrator.isNone)).map (fun r =>
      ⟨r.fund_id, "Completeness", "Medium", "administrator"⟩)

/-- The pandas condition notna and (value below min or value above max); a
missing value never fires. -/
def rangeViolation (v : Option ℚ) (mn mx : ℚ) : Bool :=
  match v with
  | some q => decide (q < mn) || decide (q > mx)
  | none => false

/-- Whether the lowercased field name contains irr, the severity test of the
performance range check. -/
def mentionsIrr (s : String) : Bool := 2 ≤ (s.toLower.splitOn "irr").length

/-- Rule 2, fund numeric range part of validate_accuracy. -/
def fundRangeCalls (year : ℚ) (funds : List FundRow) : List LogCall :=
  (fundNumericRanges year).flatMap (fun rule =>
    if rule.1 ∈ stdFundsColumns then
      (funds.filter (fun r => rangeViolation (fundNumField r rule.1) rule.2.1 rule.2.2)).map (fun r =>
        ⟨r.fund_id, "Accuracy",
          match fundNumField r rule.1 with
          | some q => if q < 0 then "Critical" else "High"
          | none => "High",
          rule.1⟩)
    else [])

/-- Rule 2, categorical part of validate_accuracy; a rule whose field is not
a column of the snapshot is skipped without any issue or error. -/
def fundCategoricalCalls (funds : List FundRow) : List LogCall :=
  fundCategoricalValues.flatMap (fun rule =>
    if rule.1 ∈ stdFundsColumns then
      (funds.filter (fun r =>
        match fundStrField r rule.1 with
        | some v => decide (v ∉ rule.2)
        | none => false)).map (fun r => ⟨r.fund_id, "Accuracy", "Medium", rule.1⟩)
    else [])

/-- Rule 2, performance numeric range part of validate_accuracy. -/
def perfRangeCalls (perf : List PerfRow) : List LogCall :=
  perfNumericRanges.flatMap (fun rule =>
    if rule.1 ∈ stdPerfColumns then
      (perf.filter (fun r => rangeViolation (perfNumField r rule.1) rule.2.1 rule.2.2)).map (fun r =>
        ⟨r.fund_id, "Accuracy",
          if mentionsIrr rule.1 then "Critical" else "High",
          rule.1⟩)
    else [])

/-- Rule 2, validate_accuracy in full. -/
def accuracyCalls (year : ℚ) (funds : List FundRow) (perf : List PerfRow) : List LogCall :=
  fundRangeCalls year funds ++ fundCategoricalCalls funds ++ perfRangeCalls perf

/-- Absolute difference lifted to nullable values, NaN propagating. -/
def optAbsSub (a b : Option ℚ) : Option ℚ :=
  match a, b with
  | some x, some y => some |x - y|
  | _, _ => none

/-- Addition lifted to nullable values, NaN propagating; the formula of the
tvpi_calculated column set in standardize_performance. -/
def optAdd (a b : Option ℚ) : Option ℚ :=
  match a, b with
  | some x, some y => some (x + y)
  | _, _ => none

/-- A NaN comparison of a nullable value against a bound is false. -/
def optGt (v : Option ℚ) (t : ℚ) : Bool :=
  match v with
  | some q => decide (q > t)
  | none => false

/-- Rule 3, the TVPI part of validate_consistency: restrict to observations
with tvpi, dpi and rvpi all present, compute the absolute variance against
tvpi_calculated, keep those above the tolerance. -/
def consistencyPerfCalls (perf : List PerfRow) : List LogCall :=
  let complete := perf.filter (fun r => r.tvpi.isSome && r.dpi.isSome && r.rvpi.isSome)
  let inconsistent := complete.filter (fun r => optGt (optAbsSub r.tvpi r.tvpi_calculated) tvpiTolerance)
  inconsistent.map (fun r => ⟨r.fund_id, "Consistency", "High", "tvpi"⟩)

/-- Rule 3, the fund size versus target size part of validate_consistency. -/
def consistencySizeCalls (funds : List FundRow) : List LogCall :=
  (funds.filter (fun r =>
    match r.fund_size_usd_millions, r.target_size_usd_millions with
    | some s, some t => decide (s > t)
    | _, _ => false)).map (fun r =>
      ⟨r.fund_id, "Consistency", "Medium", "fund_size_usd_millions"⟩)

/-- Rule 3, validate_consistency in full. -/
def consistencyCalls (perf : List PerfRow) (funds : List FundRow) : List LogCall :=
  consistencyPerfCalls perf ++ consistencySizeCalls funds

/-- Rule 4, validate_timeliness: last_updated is an epoch day count and now
the current day; stale rows are escalated by age. -/
def timelinessCalls (now : Int) (funds : List FundRow) : List LogCall :=
  (funds.filter (fun r =>
    match r.last_updated with
    | some lu => decide (lu < now - timelinessDays)
    | none => false)).map (fun r =>
      match r.last_updated with
      | some lu =>
          ⟨r.fund_id, "Timeliness",
            if now - lu > 365 then "Critical" else if now - lu > 180 then "High" else "Medium",
            "last_updated"⟩
      | none => ⟨r.fund_id, "Timeliness", "Medium", "last_updated"⟩)

/-- Grouping key of the duplicate rule: both components must be present,
since pandas groupby drops groups with a null key. -/
def dupKey (r : FundRow) : Option (String × String) :=
  match r.manager_name, r.fund_name with
  | some m, some n => some (m, n)
  | _, _ => none

/-- Rule 5, validate_duplicates: every member of a (manager_name, fund_name)
group of size above one gets one High issue. -/
def duplicatesCalls (funds : List FundRow) : List LogCall :=
  let keys := uniqueList (funds.filterMap dupKey)
  let dups := keys.filter (fun k => decide (1 < funds.countP (fun r => dupKey r == some k)))
  dups.flatMap (fun k =>
    (funds.filter (fun r => dupKey r == some k)).map (fun r =>
      ⟨r.fund_id, "Duplicates", "High", "fund_name"⟩))

/-- Rule 6, validate_referential_integrity: the orphaned set is the distinct
performance fund_ids minus the fund master fund_ids; ord models the
enumeration order of the Python set. -/
def refIntegrityCallsWith (ord : List (Option String) → List (Option String))
    (funds : List FundRow) (perf : List PerfRow) : List LogCall :=
  let valid := funds.map (fun r => r.fund_id)
  let distinctPerf := uniqueList (perf.map (fun r => r.fund_id))
  let orphaned := distinctPerf.filter (fun fid => decide (fid ∉ valid))
  (ord orphaned).map (fun fid => ⟨fid, "Referential Integrity", "High", "fund_id"⟩)

/-- Rule 6 with the canonical enumeration order. -/
def refIntegrityCalls (funds : List FundRow) (perf : List PerfRow) : List LogCall :=
  refIntegrityCallsWith (fun l => l) funds perf

/-- Result of the pandas variance expression, which can be a number, positive
infinity (division of a nonzero numerator by zero) or NaN. -/
inductive PVal where
  | nan : PVal
  | posInf : PVal
  | num : ℚ → PVal
deriving DecidableEq, Repr

/-- Comparison of a pandas float against a finite bound: NaN compares false,
positive infinity compares true. -/
def pGt : PVal → ℚ → Bool
  | .nan, _ => false
  | .posInf, _ => true
  | .num q, t => decide (q > t)

/-- The variance_pct column of validate_cross_source:
abs((fund_size - reported_aum) / reported_aum) * 100 under pandas float
semantics. A null on either side gives NaN; a zero denominator gives NaN for
a zero numerator and positive infinity otherwise. -/
def variancePct (size aum : Option ℚ) : PVal :=
  match size, aum with
  | some a, some b =>
      if b = 0 then (if a = 0 then .nan else .posInf)
      else .num (|(a - b) / b| * 100)
  | _, _ => .nan

/-- First non-null reported_aum_millions among the filings of one fund_id,
the meaning of the pandas groupby first aggregation. -/
def firstAum (regs : List RegRow) (fid : String) : Option ℚ :=
  ((regs.filter (fun rr => rr.fund_id == some fid)).filterMap
    (fun rr => rr.reported_aum_millions)).head?

/-- Rule 7 for one fund: inner join against the per-fund first filing, then
threshold and severity ladder on variance_pct. -/
def crossSourceCheck (regs : List RegRow) (f : FundRow) : Option LogCall :=
  match f.fund_id with
  | none => none
  | some fid =>
      if regs.any (fun rr => rr.fund_id == some fid) then
        let v := variancePct f.fund_size_usd_millions (firstAum regs fid)
        if pGt v varianceThreshold then
          some ⟨f.fund_id, "Cross-Source Variance",
            if pGt v 30 then "Critical" else if pGt v 15 then "High" else "Medium",
            "fund_size_usd_millions"⟩
        else none
      else none

/-- Rule 7, validate_cross_source over the fund table. -/
def crossSourceCalls (funds : List FundRow) (regs : List RegRow) : List LogCall :=
  funds.filterMap (crossSourceCheck regs)

/-- The log_issue call sequence of one full validation run, rules in the
order executed by the main function of src/02_validate_quality.py. -/
def validationCallsWith (ord : List (Option String) → List (Option String))
    (funds : List FundRow) (perf : List PerfRow) (regs : List RegRow)
    (now : Int) (year : ℚ) : List LogCall :=
  completenessCalls funds ++ accuracyCalls year funds perf ++
    consistencyCalls perf funds ++ timelinessCalls now funds ++
    duplicatesCalls funds ++ refIntegrityCallsWith ord funds perf ++
    crossSourceCalls funds regs

/-- One full validation run from the fresh validator state; ts is the
validation timestamp taken at construction, now and year the clock readings
used by the timeliness rule and the vintage range. -/
def validatorRunWith (ord : List (Option String) → List (Option String))
    (funds : List FundRow) (perf : List PerfRow) (regs : List RegRow)
    (ts : String) (now : Int) (year : ℚ) : VState :=
  runCalls ts initState (validationCallsWith ord funds perf regs now year)

/-- One full validation run with the canonical set enumeration order. -/
def validatorRun (funds : List FundRow) (perf : List PerfRow) (regs : List RegRow)
    (ts : String) (now : Int) (year : ℚ) : VState :=
  validatorRunWith (fun l => l) funds perf regs ts now year

/-
MetricsGenerator of src/03_generate_metrics.py: the metric record, the
manager quality scores and the weighted overall score.
-/

/-- Rounding to two decimals, the round(x, 2) applied by log_metric to every
stored value (float rounding idealized on rationals). -/
def round2 (q : ℚ) : ℚ := ((⌊q * 100 + 1 / 2⌋ : ℤ) : ℚ) / 100

/-- A record of the quality_metrics accumulator built by log_metric. -/
structure Metric where
  metric_date : String
  metric_name : String
  metric_value : ℚ
  target_value : ℚ
  entity_type : String
  entity_name : Option String
  calculation_timestamp : String
deriving DecidableEq, Repr

/-- MetricsGenerator.log_metric: both stored values are rounded to two
decimals; md and ct are the date and timestamp taken at construction. -/
def mkMetric (md ct : String) (name : String) (value target : ℚ)
    (etype : String) (ename : Option String) : Metric :=
  ⟨md, name, round2 value, round2 target, etype, ename, ct⟩

/-- The per-manager score computed by calculate_manager_quality_scores: the
issue count is the number of issue rows whose fund_id is among the manager
funds, counted with multiplicity. A missing manager name matches no row,
because a pandas NaN equality comparison is false. -/
def managerScoreValue (funds : List FundRow) (issueIds : List (Option String))
    (m : Option String) : ℚ :=
  let manager_funds := funds.filter (fun f =>
    match m with
    | some s => f.manager_name == some s
    | none => false)
  let total_funds := manager_funds.length
  let manager_issues := issueIds.countP (fun fid => (manager_funds.map (fun f => f.fund_id)).contains fid)
  if 0 < total_funds then ((total_funds : ℚ) - (manager_issues : ℚ)) / (total_funds : ℚ) * 100
  else 100

/-- MetricsGenerator.calculate_manager_quality_scores: for every distinct
manager name (appearance order, including a missing one) log the quality
score metric and the tier metric, both storing the score. -/
def calculate_manager_quality_scores (md ct : String) (funds : List FundRow)
    (issueIds : List (Option String)) : List Metric :=
  (uniqueList (funds.map (fun f => f.manager_name))).flatMap (fun m =>
    let quality_score := managerScoreValue funds issueIds m
    [mkMetric md ct "Manager Quality Score" quality_score 85 "Manager" m,
     mkMetric md ct "Manager Quality Tier" quality_score 85 "Manager" m])

/-- The component lookup of calculate_overall_dq_score: first stored metric
with the given name at System level, defaulting to 100. -/
def systemMetricValue (metrics : List Metric) (name : String) : ℚ :=
  ((metrics.find? (fun m => m.metric_name == name && m.entity_type == "System")).map
    (fun m => m.metric_value)).getD 100

/-- MetricsGenerator.calculate_overall_dq_score: the weighted average of the
three stored component scores, weights 0.30, 0.50 and 0.20. -/
def calculate_overall_dq_score (md ct : String) (metrics : List Metric) : Metric :=
  let completeness := systemMetricValue metrics "Completeness Score"
  let accuracy := systemMetricValue metrics "Accuracy Score"
  let timeliness := systemMetricValue metrics "Timeliness Score"
  let overall_score := completeness * (30 / 100) + accuracy * (50 / 100) + timeliness * (20 / 100)
  mkMetric md ct "Overall Data Quality Score" overall_score 90 "System" (some "Overall")

/-- Extraction of the stored Manager Quality Score of one manager from a
metric list: value of the first matching record. -/
def storedManagerScore (metrics : List Metric) (m : String) : Option ℚ :=
  (metrics.find? (fun x =>
    x.metric_name == "Manager Quality Score" && x.entity_type == "Manager" &&
      x.entity_name == some m)).map (fun x => x.metric_value)

/-
Definitions written from the words of the specification, for comparison with
the code-derived definitions above.
-/

/-- Modelled from the spec: Manager Quality Score with set semantics, the
number of distinct manager funds carrying at least one issue of any type. -/
def specManagerQualityScore (funds : List FundRow) (issueIds : List (Option String))
    (m : String) : ℚ :=
  let manager_funds := funds.filter (fun f => f.manager_name == some m)
  let total_funds := manager_funds.length
  let flagged_funds :=
    ((uniqueList (manager_funds.map (fun f => f.fund_id))).filter
      (fun fid => issueIds.contains fid)).length
  if 0 < total_funds then ((total_funds : ℚ) - (flagged_funds : ℚ)) / (total_funds : ℚ) * 100
  else 100

/-- Modelled from the spec: the literal cross-source variance formula
abs(fund_size - filed_aum) / filed_aum * 100, with the absolute value taken
over the numerator only, as the spec writes it. -/
def specVariancePct (fund_size filed_aum : ℚ) : ℚ :=
  |fund_size - filed_aum| / filed_aum * 100

/-- A fund row with every cell null, the base of concrete examples. -/
def blankFund : FundRow :=
  ⟨none, none, none, none, none, none, none, none, none, none, none, none,
   none, none, none, none⟩

/-- A performance row with every cell null. -/
def blankPerf : PerfRow :=
  ⟨none, none, none, none, none, none, none, none, none, none, none, none,
   none, none⟩

/-- C10: get_manager_tier maps the exact score 100 to Tier 4 (Critical),
because every band has an exclusive upper bound and the fallback is Tier 4,
while a score just below 100 still lands in Tier 1. -/
theorem manager_tier_at_score_100 :
    get_manager_tier 100 = "Tier 4 (Critical)" ∧
      get_manager_tier 99 = "Tier 1 (Excellent)" := by
  constructor <;> decide

/-- C4: on a filing whose reported AUM is exactly zero and a fund with a
nonzero size, validate_cross_source does not skip the comparison: the
variance is infinite and a Critical issue is emitted; a null reported AUM is
skipped. This evaluates the code at the failing input of the claim. -/
theorem cross_source_zero_denominator_not_skipped :
    crossSourceCheck [⟨some "F001", some 0⟩]
        { blankFund with fund_id := some "F001", fund_size_usd_millions := some 100 } =
      some ⟨some "F001", "Cross-Source Variance", "Critical", "fund_size_usd_millions"⟩ ∧
    crossSourceCheck [⟨some "F001", none⟩]
        { blankFund with fund_id := some "F001", fund_size_usd_millions := some 100 } =
      none := by
  constructor <;> rfl

/-- C5: the configured categorical rule for the currency field references a
column absent from the standardized funds snapshot, and validate_accuracy
silently skips it for every possible fund table: no currency issue is ever
produced and no error is raised. -/
theorem currency_rule_silently_skipped :
    ("currency" ∈ fundCategoricalValues.map Prod.fst) ∧
    ("currency" ∉ stdFundsColumns) ∧
    ∀ funds : List FundRow,
      (fundCategoricalCalls funds).filter (fun c => c.field_name == "currency") = [] := by
  refine ⟨by decide, by decide, ?_⟩
  intro funds
  have h1 : ("fund_type" ∈ stdFundsColumns) := by decide
  have h2 : ¬ ("currency" ∈ stdFundsColumns) := by decide
  simp [fundCategoricalCalls, fundCategoricalValues, h1, h2, List.filter_map,
    Function.comp]

/-- C2: folding any sequence of log_issue calls from the fresh validator
state yields the issues in call order, exactly one alert per Critical call
(none otherwise), alerts carrying the triggering issue data, and the n-th
alert identifier equal to ALERT- followed by n zero padded to four digits,
1-based in creation order. -/
theorem critical_issue_alert_correspondence (calls : List LogCall) (ts : String) :
    (runCalls ts initState calls).issues = calls.map (issueOf ts) ∧
    (runCalls ts initState calls).alerts.length =
      calls.countP (fun c => c.severity == "Critical") ∧
    (runCalls ts initState calls).alerts.map (fun a => (a.fund_id, a.rule_violated, a.severity)) =
      (calls.filter (fun c => c.severity == "Critical")).map
        (fun c => (c.fund_id, c.issue_type, c.severity)) ∧
    (runCalls ts initState calls).alerts.map (fun a => a.alert_id) =
      (List.range (calls.countP (fun c => c.severity == "Critical"))).map
        (fun k => "ALERT-" ++ pad4 (k + 1)) := by
  obtain ⟨hi, ha⟩ := runCalls_issues_alerts ts calls initState
  have hlen := length_buildAlerts ts calls 0
  refine ⟨by simpa [initState] using hi, ?_, ?_, ?_⟩
  · rw [ha]; simp [initState, hlen]
  · rw [ha]; simpa [initState] using payload_buildAlerts ts calls 0
  · rw [ha]
    have hids := ids_buildAlerts ts calls 0
    rw [hlen] at hids
    simpa [initState] using hids

theorem countP_eq_ite_of_nodup {α : Type} [DecidableEq α] (a : α) :
    ∀ l : List α, l.Nodup →
      l.countP (fun x => decide (x = a)) = if a ∈ l then 1 else 0 := by
  intro l
  induction l with
  | nil => intro _; simp
  | cons x xs ih =>
      intro hnd
      obtain ⟨hx, hxs⟩ := List.nodup_cons.mp hnd
      by_cases hxa : x = a
      · subst hxa
        have hmem : x ∉ xs := hx
        rw [List.countP_cons]
        rw [ih hxs]
        simp [hmem]
      · rw [List.countP_cons]
        rw [ih hxs]
        by_cases ham : a ∈ xs <;> simp [hxa, ham, Ne.symm hxa]

/-- C6: the referential-integrity rule emits exactly one issue per distinct
orphaned fund_id, however many performance observations reference it, none
for fund_ids present in the fund master, and every issue it emits has type
Referential Integrity and severity High. -/
theorem referential_integrity_one_issue_per_orphan
    (funds : List FundRow) (perf : List PerfRow) (fid : Option String) :
    (refIntegrityCalls funds perf).countP (fun c => decide (c.fund_id = fid)) =
      (if fid ∈ perf.map (fun r => r.fund_id) ∧ fid ∉ funds.map (fun r => r.fund_id)
       then 1 else 0) ∧
    ∀ c ∈ refIntegrityCalls funds perf,
      c.issue_type = "Referential Integrity" ∧ c.severity = "High" := by
  constructor
  · have hmap :
        (refIntegrityCalls funds perf).countP (fun c => decide (c.fund_id = fid)) =
          ((uniqueList (perf.map (fun r => r.fund_id))).filter
            (fun x => decide (x ∉ funds.map (fun r => r.fund_id)))).countP
              (fun x => decide (x = fid)) := by
      simp only [refIntegrityCalls, refIntegrityCallsWith, List.countP_map]
      rfl
    rw [hmap]
    have hnd : ((uniqueList (perf.map (fun r => r.fund_id))).filter
        (fun x => decide (x ∉ funds.map (fun r => r.fund_id)))).Nodup :=
      (nodup_uniqueList _).filter _
    have hmem : fid ∈ (uniqueList (perf.map (fun r => r.fund_id))).filter
        (fun x => decide (x ∉ funds.map (fun r => r.fund_id))) ↔
        (fid ∈ perf.map (fun r => r.fund_id) ∧ fid ∉ funds.map (fun r => r.fund_id)) := by
      rw [List.mem_filter]
      rw [mem_uniqueList]
      simp
    rw [countP_eq_ite_of_nodup fid _ hnd]
    by_cases h : fid ∈ perf.map (fun r => r.fund_id) ∧ fid ∉ funds.map (fun r => r.fund_id)
    · rw [if_pos h, if_pos (hmem.mpr h)]
    · rw [if_neg h, if_neg (fun hc => h (hmem.mp hc))]
  · intro c hc
    simp only [refIntegrityCalls, refIntegrityCallsWith, List.mem_map] at hc
    obtain ⟨x, _, rfl⟩ := hc
    exact ⟨rfl, rfl⟩

/-- Example tables for the referential-integrity witness: fund_id PX is
referenced by two observations and absent from the fund master. -/
def refFunds : List FundRow := [{ blankFund with fund_id := some "F001" }]

/-- Performance observations referencing an orphaned fund_id twice. -/
def refPerf : List PerfRow :=
  [{ blankPerf with fund_id := some "PX" },
   { blankPerf with fund_id := some "PX" },
   { blankPerf with fund_id := some "F001" }]

theorem referential_integrity_one_issue_per_orphan_witness :
    (refIntegrityCalls refFunds refPerf).countP (fun c => decide (c.fund_id = some "PX")) = 1 ∧
    (refIntegrityCalls refFunds refPerf).countP (fun c => decide (c.fund_id = some "F001")) = 0 := by
  constructor
  · have h := (referential_integrity_one_issue_per_orphan refFunds refPerf (some "PX")).1
    rw [h]; decide
  · have h := (referential_integrity_one_issue_per_orphan refFunds refPerf (some "F001")).1
    rw [h]; decide

/-- C3: on any performance table whose tvpi_calculated column carries the
value set at standardization (dpi + rvpi, null propagating), the TVPI
consistency check emits exactly the High issues of the observations where
tvpi, dpi and rvpi are all present and the absolute difference between tvpi
and dpi + rvpi strictly exceeds the 0.01 tolerance; observations with a
missing input are never checked, and an exact equality emits nothing. -/
theorem consistency_issue_iff_variance_above_tolerance (perf : List PerfRow)
    (hcalc : ∀ r ∈ perf, r.tvpi_calculated = optAdd r.dpi r.rvpi) :
    consistencyPerfCalls perf =
      (perf.filter (fun r =>
        match r.tvpi, r.dpi, r.rvpi with
        | some t, some d, some rv => decide (|t - (d + rv)| > tvpiTolerance)
        | _, _, _ => false)).map
          (fun r => ⟨r.fund_id, "Consistency", "High", "tvpi"⟩) := by
  simp only [consistencyPerfCalls]
  rw [List.filter_filter]
  congr 1
  apply List.filter_congr
  intro r hr
  rw [hcalc r hr]
  match htv : r.tvpi, hd : r.dpi, hrv : r.rvpi with
  | some t, some d, some rv => simp [optAdd, optAbsSub, optGt]
  | none, _, _ => simp [optGt, optAbsSub]
  | some t, none, _ => simp [optAdd, optAbsSub, optGt]
  | some t, some d, none => simp [optAdd, optAbsSub, optGt]

/-- Performance table for the consistency witness: one exactly consistent
observation, one off by 0.10, one with a missing rvpi. -/
def consPerf : List PerfRow :=
  [{ blankPerf with
      fund_id := some "F001", dpi := some (1 / 2), rvpi := some 1,
      tvpi := some (3 / 2), tvpi_calculated := some (3 / 2) },
   { blankPerf with
      fund_id := some "F002", dpi := some (4 / 5), rvpi := some 1,
      tvpi := some (19 / 10), tvpi_calculated := some (9 / 5) },
   { blankPerf with
      fund_id := some "F003", dpi := some (4 / 5),
      tvpi := some (19 / 10) }]

theorem consistency_issue_iff_variance_above_tolerance_witness :
    consistencyPerfCalls consPerf =
      (consPerf.filter (fun r =>
        match r.tvpi, r.dpi, r.rvpi with
        | some t, some d, some rv => decide (|t - (d + rv)| > tvpiTolerance)
        | _, _, _ => false)).map
          (fun r => ⟨r.fund_id, "Consistency", "High", "tvpi"⟩) :=
  consistency_issue_iff_variance_above_tolerance consPerf (by
    intro r hr
    simp only [consPerf, List.mem_cons, List.mem_singleton] at hr
    rcases hr with rfl | rfl | rfl | h
    · norm_num [optAdd]
    · norm_num [optAdd]
    · simp [optAdd, blankPerf]
    · cases h)

/-- C7: the overall data quality score metric stores the weighted average
0.30 times the stored System completeness score plus 0.50 times the stored
System accuracy score plus 0.20 times the stored System timeliness score,
rounded to two decimals like every stored metric value. -/
theorem overall_dq_score_weighted (md ct : String) (metrics : List Metric) (c a t : ℚ)
    (hc : systemMetricValue metrics "Completeness Score" = c)
    (ha : systemMetricValue metrics "Accuracy Score" = a)
    (ht : systemMetricValue metrics "Timeliness Score" = t) :
    (calculate_overall_dq_score md ct metrics).metric_name = "Overall Data Quality Score" ∧
    (calculate_overall_dq_score md ct metrics).metric_value =
      round2 ((30 / 100) * c + (50 / 100) * a + (20 / 100) * t) := by
  refine ⟨rfl, ?_⟩
  simp only [calculate_overall_dq_score, mkMetric, hc, ha, ht]
  ring_nf

/-- Stored System metrics all at 100, for the overall-score witness. -/
def exSystemMetrics : List Metric :=
  [⟨"d", "Completeness Score", 100, 95, "System", some "Overall", "t"⟩,
   ⟨"d", "Accuracy Score", 100, 98, "System", some "Overall", "t"⟩,
   ⟨"d", "Timeliness Score", 100, 95, "System", some "Overall", "t"⟩]

theorem overall_dq_score_weighted_witness :
    (calculate_overall_dq_score "d" "t" exSystemMetrics).metric_value =
      round2 ((30 / 100) * 100 + (50 / 100) * 100 + (20 / 100) * 100) ∧
    (calculate_overall_dq_score "d" "t" exSystemMetrics).metric_value = 100 := by
  have h := (overall_dq_score_weighted "d" "t" exSystemMetrics 100 100 100
    (by decide) (by decide) (by decide)).2
  refine ⟨h, ?_⟩
  rw [h]
  norm_num [round2]

theorem find_cons_true {α : Type} (p : α → Bool) (a : α) (l : List α) (h : p a = true) :
    (a :: l).find? p = some a := by
  simp [List.find?, h]

theorem find_cons_false {α : Type} (p : α → Bool) (a : α) (l : List α) (h : p a = false) :
    (a :: l).find? p = l.find? p := by
  simp [List.find?, h]

theorem find_manager_score_metric (md ct : String) (funds : List FundRow)
    (issueIds : List (Option String)) (m : String) :
    ∀ us : List (Option String), some m ∈ us →
      (us.flatMap (fun u =>
        [mkMetric md ct "Manager Quality Score" (managerScoreValue funds issueIds u) 85 "Manager" u,
         mkMetric md ct "Manager Quality Tier" (managerScoreValue funds issueIds u) 85 "Manager" u])).find?
          (fun x => x.metric_name == "Manager Quality Score" && x.entity_type == "Manager" &&
            x.entity_name == some m) =
        some (mkMetric md ct "Manager Quality Score" (managerScoreValue funds issueIds (some m))
          85 "Manager" (some m)) := by
  intro us
  induction us with
  | nil => intro h; cases h
  | cons u rest ih =>
      intro hmem
      rw [List.flatMap_cons]
      by_cases hu : u = some m
      · subst hu
        rw [List.cons_append]
        apply find_cons_true
        simp [mkMetric]
      · rw [List.cons_append, find_cons_false _ _ _ (by simp [mkMetric, hu]),
          List.cons_append, find_cons_false _ _ _ (by simp [mkMetric]), List.nil_append]
        apply ih
        rcases List.mem_cons.mp hmem with h | h
        · exact absurd h.symm hu
        · exact h

/-- C1 amended: for every manager appearing in the fund table, the stored
Manager Quality Score equals (fund count minus the count of issue rows whose
fund_id belongs to the manager funds, with multiplicity) divided by the fund
count, times 100, rounded to two decimals: a fund with several issues is
subtracted once per issue row, not once. -/
theorem manager_quality_score_counts_issue_rows (md ct : String) (funds : List FundRow)
    (issueIds : List (Option String)) (m : String)
    (hm : some m ∈ funds.map (fun f => f.manager_name)) :
    storedManagerScore (calculate_manager_quality_scores md ct funds issueIds) m =
      some (round2 (
        if 0 < funds.countP (fun f => f.manager_name == some m) then
          ((funds.countP (fun f => f.manager_name == some m) : ℚ) -
            (issueIds.countP (fun fid =>
              ((funds.filter (fun f => f.manager_name == some m)).map
                (fun f => f.fund_id)).contains fid) : ℚ)) /
            (funds.countP (fun f => f.manager_name == some m) : ℚ) * 100
        else 100)) := by
  have hmem : some m ∈ uniqueList (funds.map (fun f => f.manager_name)) :=
    (mem_uniqueList _ _).mpr hm
  unfold storedManagerScore calculate_manager_quality_scores
  rw [find_manager_score_metric md ct funds issueIds m _ hmem]
  have hval : managerScoreValue funds issueIds (some m) =
      (if 0 < funds.countP (fun f => f.manager_name == some m) then
        ((funds.countP (fun f => f.manager_name == some m) : ℚ) -
          (issueIds.countP (fun fid =>
            ((funds.filter (fun f => f.manager_name == some m)).map
              (fun f => f.fund_id)).contains fid) : ℚ)) /
          (funds.countP (fun f => f.manager_name == some m) : ℚ) * 100
      else 100) := by
    unfold managerScoreValue
    rw [List.countP_eq_length_filter]
  simp [mkMetric, hval]

/-- A fund of the ten-fund witness manager. -/
def acmeFund (fid : String) : FundRow :=
  { blankFund with fund_id := some fid, manager_name := some "Acme" }

/-- Ten funds under one manager. -/
def acmeFunds : List FundRow :=
  ["F001", "F002", "F003", "F004", "F005", "F006", "F007", "F008", "F009",
   "F010"].map acmeFund

/-- Two issue rows, one on each of two distinct funds. -/
def acmeIssueIds : List (Option String) := [some "F001", some "F002"]

theorem manager_quality_score_counts_issue_rows_witness :
    storedManagerScore
      (calculate_manager_quality_scores "d" "t" acmeFunds acmeIssueIds) "Acme" = some 80 := by
  have h := manager_quality_score_counts_issue_rows "d" "t" acmeFunds acmeIssueIds "Acme"
    (by decide)
  have h10 : acmeFunds.countP (fun f => f.manager_name == some "Acme") = 10 := by decide
  have h2 : acmeIssueIds.countP (fun fid =>
      ((acmeFunds.filter (fun f => f.manager_name == some "Acme")).map
        (fun f => f.fund_id)).contains fid) = 2 := by decide
  rw [h, h10, h2]
  norm_num [round2]

/-- The one-fund manager of the counterexample table. -/
def mFunds : List FundRow :=
  [{ blankFund with fund_id := some "F001", manager_name := some "M" }]

/-- Two issue rows on the same fund. -/
def mIssueIds : List (Option String) := [some "F001", some "F001"]

/-- C1 counterexample: with one fund carrying two issues, the stored Manager
Quality Score is -100 while the set-semantics score of the claim is 0, so
the claim fails on the code. -/
theorem manager_quality_score_not_set_semantics :
    storedManagerScore (calculate_manager_quality_scores "d" "t" mFunds mIssueIds) "M" =
      some (-100) ∧
    specManagerQualityScore mFunds mIssueIds "M" = 0 ∧ ((-100 : ℚ) ≠ 0) := by
  refine ⟨?_, ?_, by norm_num⟩
  · have h1 : uniqueList (mFunds.map (fun f => f.manager_name)) = [some "M"] := by decide
    have h2 : managerScoreValue mFunds mIssueIds (some "M") = -100 := by
      unfold managerScoreValue
      norm_num [mFunds, mIssueIds, blankFund]
    unfold storedManagerScore calculate_manager_quality_scores
    rw [h1]
    simp [mkMetric, h2]
    norm_num [round2]
  · unfold specManagerQualityScore
    norm_num [mFunds, mIssueIds, blankFund, uniqueList, uniqueAux]

/-- Fund reported at 300 against a negative filed AUM. -/
def negAumFund : FundRow :=
  { blankFund with fund_id := some "F001", fund_size_usd_millions := some 300 }

/-- One filing with a negative reported AUM. -/
def negAumRegs : List RegRow := [⟨some "F001", some (-100)⟩]

/-- C8 counterexample: with a filed AUM of -100 and a fund size of 300, the
code emits a Critical issue (pandas computes abs of the whole quotient, 400),
while the literal spec formula abs(fund_size - filed_aum) / filed_aum * 100
evaluates to -400, which does not exceed the 5 percent threshold, so the
claim as stated is false on this input. -/
theorem cross_source_spec_formula_fails :
    crossSourceCheck negAumRegs negAumFund =
      some ⟨some "F001", "Cross-Source Variance", "Critical", "fund_size_usd_millions"⟩ ∧
    specVariancePct 300 (-100) = -400 ∧ ¬ ((-400 : ℚ) > varianceThreshold) := by
  refine ⟨?_, ?_, by norm_num [varianceThreshold]⟩
  · norm_num [crossSourceCheck, negAumRegs, negAumFund, blankFund, firstAum,
      variancePct, pGt, varianceThreshold]
  · norm_num [specVariancePct]

/-- C8 amended: on a matched fund with both numbers present, the cross-source
rule emits an issue exactly when abs((fund_size - filed_aum) / filed_aum)
times 100 exceeds the 5 percent threshold, with severity Critical above 30,
High above 15, Medium otherwise; a zero filed AUM with a nonzero fund size
yields an infinite variance and a Critical issue, and a zero filed AUM with a
zero fund size is skipped. -/
theorem cross_source_variance_amended (f : FundRow) (regs : List RegRow)
    (fid : String) (a b : ℚ)
    (hfid : f.fund_id = some fid)
    (hmatch : regs.any (fun rr => rr.fund_id == some fid) = true)
    (hsize : f.fund_size_usd_millions = some a)
    (haum : firstAum regs fid = some b) :
    (b ≠ 0 → crossSourceCheck regs f =
      (if |(a - b) / b| * 100 > varianceThreshold then
        some ⟨some fid, "Cross-Source Variance",
          if |(a - b) / b| * 100 > 30 then "Critical"
          else if |(a - b) / b| * 100 > 15 then "High" else "Medium",
          "fund_size_usd_millions"⟩
       else none)) ∧
    (b = 0 → a ≠ 0 → crossSourceCheck regs f =
      some ⟨some fid, "Cross-Source Variance", "Critical", "fund_size_usd_millions"⟩) ∧
    (b = 0 → a = 0 → crossSourceCheck regs f = none) := by
  unfold crossSourceCheck
  simp only [hfid, hmatch, hsize, haum, if_true]
  refine ⟨?_, ?_, ?_⟩
  · intro hb
    simp [variancePct, if_neg hb, pGt]
  · intro hb ha
    subst hb
    simp [variancePct, ha, pGt]
  · intro hb ha
    subst hb; subst ha
    simp [variancePct, pGt]

/-- Matched fund with a six percent variance for the cross-source witness. -/
def medVarFund : FundRow :=
  { blankFund with fund_id := some "F001", fund_size_usd_millions := some 106 }

/-- One filing with AUM 100 for the cross-source witness. -/
def medVarRegs : List RegRow := [⟨some "F001", some 100⟩]

theorem cross_source_variance_amended_witness :
    crossSourceCheck medVarRegs medVarFund =
      some ⟨some "F001", "Cross-Source Variance", "Medium", "fund_size_usd_millions"⟩ := by
  have h := (cross_source_variance_amended medVarFund medVarRegs "F001" 106 100
    rfl (by decide) rfl (by decide)).1 (by norm_num)
  rw [h]
  norm_num [varianceThreshold, abs_div, abs_of_nonneg]

theorem buildAlerts_append (ts : String) (l1 l2 : List LogCall) :
    ∀ n : Nat, buildAlerts ts n (l1 ++ l2) =
      buildAlerts ts n l1 ++
        buildAlerts ts (n + l1.countP (fun c => c.severity == "Critical")) l2 := by
  induction l1 with
  | nil => intro n; simp [buildAlerts]
  | cons c cs ih =>
      intro n
      by_cases hc : c.severity = "Critical"
      · simp only [List.cons_append, buildAlerts_cons, if_pos hc, ih (n + 1),
          List.countP_cons, hc]
        simp [Nat.add_comm, Nat.add_assoc, Nat.add_left_comm]
      · simp only [List.cons_append, buildAlerts_cons, if_neg hc, ih n,
          List.countP_cons]
        simp [hc]

theorem buildAlerts_of_no_critical (ts : String) (l : List LogCall)
    (h : ∀ c ∈ l, c.severity ≠ "Critical") : ∀ n : Nat, buildAlerts ts n l = [] := by
  induction l with
  | nil => intro n; rfl
  | cons c cs ih =>
      intro n
      rw [buildAlerts_cons, if_neg (h c (List.mem_cons_self c cs))]
      exact ih (fun x hx => h x (List.mem_cons_of_mem c hx)) n

theorem refIntegrity_no_critical (ord : List (Option String) → List (Option String))
    (funds : List FundRow) (perf : List PerfRow) :
    (∀ c ∈ refIntegrityCallsWith ord funds perf, c.severity ≠ "Critical") ∧
    (refIntegrityCallsWith ord funds perf).countP (fun c => c.severity == "Critical") = 0 := by
  constructor
  · intro c hc
    simp only [refIntegrityCallsWith, List.mem_map] at hc
    obtain ⟨x, _, rfl⟩ := hc
    simp
  · rw [List.countP_eq_zero]
    intro c hc
    simp only [refIntegrityCallsWith, List.mem_map] at hc
    obtain ⟨x, _, rfl⟩ := hc
    simp

/-- One fund with only its identifier populated, baseline snapshot of the
determinism example. -/
def clockFunds : List FundRow := [{ blankFund with fund_id := some "F001" }]

/-- C9 counterexample: the very same snapshot validated at two different
wall-clock readings produces different issue content, because every issue
embeds the validation timestamp taken at construction; byte-identical input
is therefore not enough for identical output. -/
theorem validator_output_differs_across_clock :
    validatorRun clockFunds [] [] "2026-02-01T00:00:00" 20000 2026 ≠
      validatorRun clockFunds [] [] "2026-02-02T00:00:00" 20000 2026 := by
  decide

/-- C9 amended: with the snapshot and the clock readings both fixed, the run
is deterministic up to the Python set enumeration order of the orphaned
fund_id set: any enumeration permutes at most the referential-integrity
issues (which are never Critical), leaving the issue multiset, the alert
list with its numbering, and the derived manager quality metrics
unchanged. -/
theorem validator_run_set_order_invariance (md ct : String)
    (ord : List (Option String) → List (Option String))
    (hord : ∀ l : List (Option String), (ord l).Perm l)
    (funds : List FundRow) (perf : List PerfRow) (regs : List RegRow)
    (ts : String) (now : Int) (year : ℚ) :
    ((validatorRunWith ord funds perf regs ts now year).issues).Perm
      ((validatorRun funds perf regs ts now year).issues) ∧
    (validatorRunWith ord funds perf regs ts now year).alerts =
      (validatorRun funds perf regs ts now year).alerts ∧
    calculate_manager_quality_scores md ct funds
        ((validatorRunWith ord funds perf regs ts now year).issues.map (fun i => i.fund_id)) =
      calculate_manager_quality_scores md ct funds
        ((validatorRun funds perf regs ts now year).issues.map (fun i => i.fund_id)) := by
  have href : (refIntegrityCallsWith ord funds perf).Perm
      (refIntegrityCallsWith (fun l => l) funds perf) := by
    unfold refIntegrityCallsWith
    exact (hord _).map _
  have hcalls : (validationCallsWith ord funds perf regs now year).Perm
      (validationCallsWith (fun l => l) funds perf regs now year) := by
    unfold validationCallsWith
    exact List.Perm.append (List.Perm.append (List.Perm.refl _) href) (List.Perm.refl _)
  obtain ⟨hi1, ha1⟩ := runCalls_issues_alerts ts
    (validationCallsWith ord funds perf regs now year) initState
  obtain ⟨hi2, ha2⟩ := runCalls_issues_alerts ts
    (validationCallsWith (fun l => l) funds perf regs now year) initState
  have hiss : ((validatorRunWith ord funds perf regs ts now year).issues).Perm
      ((validatorRun funds perf regs ts now year).issues) := by
    unfold validatorRunWith validatorRun validatorRunWith
    rw [hi1, hi2]
    simp only [initState, List.nil_append]
    exact hcalls.map _
  refine ⟨hiss, ?_, ?_⟩
  · unfold validatorRunWith validatorRun validatorRunWith
    rw [ha1, ha2]
    simp only [initState, List.nil_append]
    unfold validationCallsWith
    simp only [buildAlerts_append, List.countP_append,
      buildAlerts_of_no_critical ts _ (refIntegrity_no_critical ord funds perf).1,
      buildAlerts_of_no_critical ts _ (refIntegrity_no_critical (fun l => l) funds perf).1,
      (refIntegrity_no_critical ord funds perf).2,
      (refIntegrity_no_critical (fun l => l) funds perf).2]
  · have hids : ((validatorRunWith ord funds perf regs ts now year).issues.map
        (fun i => i.fund_id)).Perm
          ((validatorRun funds perf regs ts now year).issues.map (fun i => i.fund_id)) :=
      hiss.map _
    have hsv : ∀ u, managerScoreValue funds
        ((validatorRunWith ord funds perf regs ts now year).issues.map (fun i => i.fund_id)) u =
          managerScoreValue funds
            ((validatorRun funds perf regs ts now year).issues.map (fun i => i.fund_id)) u := by
      intro u
      simp only [managerScoreValue]
      rw [List.Perm.countP_eq _ hids]
    unfold calculate_manager_quality_scores
    apply congrArg
    funext u
    rw [hsv u]

/-- Two performance rows whose fund_ids are both orphaned, so that a reversed
set enumeration order genuinely reorders the referential-integrity issues. -/
def orphanPerf : List PerfRow :=
  [{ blankPerf with fund_id := some "P1" }, { blankPerf with fund_id := some "P2" }]

theorem validator_run_set_order_invariance_witness :
    ((validatorRunWith List.reverse clockFunds orphanPerf [] "T" 20000 2026).issues).Perm
      ((validatorRun clockFunds orphanPerf [] "T" 20000 2026).issues) ∧
    (validatorRunWith List.reverse clockFunds orphanPerf [] "T" 20000 2026).alerts =
      (validatorRun clockFunds orphanPerf [] "T" 20000 2026).alerts := by
  have h := validator_run_set_order_invariance "d" "t" List.reverse
    (fun l => List.reverse_perm l) clockFunds orphanPerf [] "T" 20000 2026
  exact ⟨h.1, h.2.1⟩

end DQ
